import Mathlib

/-!
Verification of the record/replay and interaction core of the
Gesture_Controlled_Robot repository.  The Python sources
(hand_tracker.py, hand_animation_player.py, gui.py, interactive_sphere.py)
are shallowly embedded: real-valued quantities become exact rationals,
Python int() becomes truncation toward zero, JSON documents become
structures with optional fields, and the GUI session is a state machine
with an explicit reachability relation.
-/

namespace GestureRobot

/-- Truncation toward zero: the behaviour of Python int() applied to a
real-valued expression (floor for non-negative arguments, ceiling for
negative ones). -/
def pyInt (q : ℚ) : ℤ := if 0 ≤ q then ⌊q⌋ else ⌈q⌉

/-- A single tracked hand landmark as produced by the tracker and stored in
recordings: the dictionaries with keys x, y, z, visibility built in
hand_tracker.py and gui.py. -/
structure LandmarkPoint where
  x : ℚ
  y : ℚ
  z : ℚ
  visibility : ℚ
deriving DecidableEq, Repr

/-- One frame of landmarks: the list current_frame_landmarks_normalized.
Empty when no hand was detected on that camera frame. -/
abbrev LandmarkFrame := List LandmarkPoint

/-! ## interactive_sphere.py -/

/-- State of InteractiveSphere (interactive_sphere.py, constructor). -/
structure InteractiveSphere where
  pos_normalized : ℚ × ℚ
  radius_pixels : ℤ
  color_default : ℤ × ℤ × ℤ
  color_collided : ℤ × ℤ × ℤ
  interaction_landmark_idx : ℕ
  is_currently_collided : Bool
deriving DecidableEq, Repr

/-- The squared pixel distance computed in InteractiveSphere.update_state:
both the sphere position and the landmark are converted to pixel
coordinates with int() before the difference is squared. -/
def sphereLandmarkDistSq (s : InteractiveSphere) (lm : LandmarkPoint) (w h : ℚ) : ℤ :=
  (pyInt (s.pos_normalized.1 * w) - pyInt (lm.x * w)) ^ 2 +
    (pyInt (s.pos_normalized.2 * h) - pyInt (lm.y * h)) ^ 2

/-- collision_threshold_sq = (radius_pixels * 1.2) ** 2 in update_state. -/
def collisionThresholdSq (s : InteractiveSphere) : ℚ :=
  ((s.radius_pixels : ℚ) * (6 / 5)) ^ 2

/-- InteractiveSphere.update_state: resets the collided flag, then, if the
frame has a point at the tracked index, tests the squared pixel distance
against the threshold; on collision the flag is set and the normalized
position snaps to the landmark.  Returns the updated sphere together with
the interaction_occurred return value of the Python method. -/
def update_state (s : InteractiveSphere) (frame : LandmarkFrame) (w h : ℚ) :
    InteractiveSphere × Bool :=
  let s0 := { s with is_currently_collided := false }
  match frame[s.interaction_landmark_idx]? with
  | none => (s0, false)
  | some lm =>
    if (sphereLandmarkDistSq s lm w h : ℚ) < collisionThresholdSq s then
      ({ s0 with is_currently_collided := true, pos_normalized := (lm.x, lm.y) }, true)
    else (s0, false)

/-! ## hand_tracker.py: recording and saving -/

/-- The recording document written by save_recording: actionName, fps,
frameCount and frames, in that shape.  JSON serialization of these values
is lossless, so the persisted file is identified with this structure. -/
structure RecordingDoc where
  actionName : String
  fps : ℚ
  frameCount : ℕ
  frames : List LandmarkFrame
deriving DecidableEq, Repr

/-- A recording file as seen by a loader: a JSON object in which any of the
four top-level fields may be absent. -/
structure JsonRecordingDoc where
  actionName : Option String
  fps : Option ℚ
  frameCount : Option ℕ
  frames : Option (List LandmarkFrame)
deriving DecidableEq, Repr

/-- Reading back a file written by save_recording yields every field it
wrote: json.dump followed by json.load round-trips these values exactly. -/
def docToJson (d : RecordingDoc) : JsonRecordingDoc :=
  { actionName := some d.actionName, fps := some d.fps,
    frameCount := some d.frameCount, frames := some d.frames }

/-- The global recording state of hand_tracker.py: is_recording,
recorded_frames, current_action_name. -/
structure TrackerState where
  is_recording : Bool
  recorded_frames : List LandmarkFrame
  current_action_name : String
deriving DecidableEq, Repr

/-- Starting a recording in main_tracker: is_recording := True,
recorded_frames := [], action name set from user input. -/
def start_recording (name : String) : TrackerState :=
  { is_recording := true, recorded_frames := [], current_action_name := name }

/-- One iteration of the recording branch of the main_tracker loop: a frame
is appended only while recording and only when a hand was detected
(current_frame_landmarks_normalized non-empty). -/
def record_frame (st : TrackerState) (f : LandmarkFrame) : TrackerState :=
  if st.is_recording ∧ f ≠ [] then
    { st with recorded_frames := st.recorded_frames ++ [f] }
  else st

/-- Feeding a sequence of captured frames through the recording loop. -/
def run_capture (st : TrackerState) (fs : List LandmarkFrame) : TrackerState :=
  fs.foldl record_frame st

/-- save_recording (hand_tracker.py): with an empty buffer it prints
No frames recorded and returns without writing; otherwise it builds the
recording document and attempts the file write.  The ioFails flag models an
IOError raised by the write: the exception is caught, no document is
persisted, and in either case the buffer is cleared afterwards (the
assignment recorded_frames = [] sits after the try/except block).
Returns the new state and the document written, if any. -/
def save_recording (st : TrackerState) (fps : ℚ) (ioFails : Bool) :
    TrackerState × Option RecordingDoc :=
  if st.recorded_frames = [] then (st, none)
  else
    let doc : RecordingDoc :=
      { actionName := st.current_action_name, fps := fps,
        frameCount := st.recorded_frames.length, frames := st.recorded_frames }
    ({ st with recorded_frames := [] }, if ioFails then none else some doc)

/-! ## hand_animation_player.py: loading -/

/-- The early-exit failures of replay_animation. -/
inductive LoadFailure where
  | fileNotFound
  | jsonDecodeError
  | noFrames
deriving DecidableEq, Repr

/-- The loading portion of replay_animation: frames, fps and actionName are
read with .get and a default (frames default [], fps default 30.0,
actionName default Unknown Action); the function aborts only when the
resulting frame list is empty. -/
def replay_load (doc : JsonRecordingDoc) :
    Except LoadFailure (List LandmarkFrame × ℚ × String) :=
  let frames_data := doc.frames.getD []
  let fps := doc.fps.getD 30
  let action_name := doc.actionName.getD "Unknown Action"
  if frames_data = [] then Except.error LoadFailure.noFrames
  else Except.ok (frames_data, fps, action_name)

/-! ## Enhanced skeletal rendering
(draw_enhanced_landmarks_replay in hand_animation_player.py; the gui.py
variant draw_enhanced_landmarks_gui computes the same geometry). -/

/-- Colors in BGR, as in the module-level constants. -/
def COLOR_WRIST : ℤ × ℤ × ℤ := (0, 255, 255)

def COLOR_THUMB_TIP : ℤ × ℤ × ℤ := (0, 255, 0)

def COLOR_FINGERTIPS : ℤ × ℤ × ℤ := (255, 0, 0)

def COLOR_JOINTS : ℤ × ℤ × ℤ := (192, 192, 192)

def COLOR_BONES : ℤ × ℤ × ℤ := (220, 220, 220)

def PALM_COLOR : ℤ × ℤ × ℤ := (80, 80, 80)

def WRIST_IDX : ℕ := 0

def THUMB_TIP_IDX : ℕ := 4

def FINGERTIP_INDICES : List ℕ := [4, 8, 12, 16, 20]

def PALM_INDICES : List ℕ := [0, 1, 5, 9, 13, 17]

/-- The mediapipe HAND_CONNECTIONS topology iterated by the bone-drawing
loop: palm connections, then the five finger chains. -/
def HAND_CONNECTIONS : List (ℕ × ℕ) :=
  [(0, 1), (0, 5), (9, 13), (13, 17), (5, 9), (0, 17),
   (1, 2), (2, 3), (3, 4),
   (5, 6), (6, 7), (7, 8),
   (9, 10), (10, 11), (11, 12),
   (13, 14), (14, 15), (15, 16),
   (17, 18), (18, 19), (19, 20)]

/-- min_z accumulated over the frame (float(inf) start; for a non-empty
frame this is the minimum of the z values). -/
def frameMinZ : LandmarkFrame → ℚ
  | [] => 0
  | p :: ps => ps.foldl (fun m q => min m q.z) p.z

/-- max_z accumulated over the frame. -/
def frameMaxZ : LandmarkFrame → ℚ
  | [] => 0
  | p :: ps => ps.foldl (fun m q => max m q.z) p.z

/-- z_range = max_z - min_z if max_z > min_z else 1.0. -/
def zRangeOf (frame : LandmarkFrame) : ℚ :=
  if frameMaxZ frame > frameMinZ frame then frameMaxZ frame - frameMinZ frame else 1

/-- depth_scale = (max_z - z) / z_range if z_range != 0 else 0.5. -/
def depthScaleOf (frame : LandmarkFrame) (z : ℚ) : ℚ :=
  if zRangeOf frame ≠ 0 then (frameMaxZ frame - z) / zRangeOf frame else 1/2

/-- One entry of the pixel_landmarks list: (px, py, z, depth_scale). -/
structure PixelLandmark where
  px : ℤ
  py : ℤ
  z : ℚ
  depth_scale : ℚ
deriving DecidableEq, Repr

/-- The pixel_landmarks list built at the start of the drawing function. -/
def pixelLandmarks (frame : LandmarkFrame) (w h : ℚ) : List PixelLandmark :=
  frame.map fun p =>
    { px := pyInt (p.x * w), py := pyInt (p.y * h), z := p.z,
      depth_scale := depthScaleOf frame p.z }

/-- An abstract drawing primitive emitted by the renderer. -/
inductive DrawOp where
  | polygon (pts : List (ℤ × ℤ)) (color : ℤ × ℤ × ℤ)
  | line (p1 p2 : ℤ × ℤ) (thickness : ℤ)
  | circle (center : ℤ × ℤ) (radius : ℤ) (color : ℤ × ℤ × ℤ)
deriving DecidableEq, Repr

/-- thickness = 1 + int(avg_depth_scale * 5) in the bone loop. -/
def boneThickness (p1 p2 : PixelLandmark) : ℤ :=
  1 + pyInt ((p1.depth_scale + p2.depth_scale) / 2 * 5)

/-- The formula stated by the spec for the same quantity, using rounding to
the nearest integer instead of the truncation performed by int().
Stated from the spec wording, for comparison against boneThickness. -/
def boneThicknessSpec (p1 p2 : PixelLandmark) : ℤ :=
  1 + round (5 * ((p1.depth_scale + p2.depth_scale) / 2))

/-- radius = 3 + int(depth_scale * 7) in the joint loop. -/
def jointRadius (p : PixelLandmark) : ℤ := 3 + pyInt (p.depth_scale * 7)

/-- Joint color selection by landmark index. -/
def jointColor (idx : ℕ) : ℤ × ℤ × ℤ :=
  if idx = WRIST_IDX then COLOR_WRIST
  else if idx = THUMB_TIP_IDX then COLOR_THUMB_TIP
  else if idx ∈ FINGERTIP_INDICES then COLOR_FINGERTIPS
  else COLOR_JOINTS

/-- The palm polygon: vertices collected from PALM_INDICES, each guarded by
idx < len(pixel_landmarks); drawn only when more than two resolve. -/
def palmOps (pls : List PixelLandmark) : List DrawOp :=
  let palm_points := PALM_INDICES.filterMap fun idx =>
    (pls[idx]?).map fun p => (p.px, p.py)
  if 2 < palm_points.length then [DrawOp.polygon palm_points PALM_COLOR] else []

/-- The bone lines: one per connection whose two endpoint indices are both
within the pixel_landmarks list. -/
def boneOps (pls : List PixelLandmark) : List DrawOp :=
  HAND_CONNECTIONS.filterMap fun c =>
    match pls[c.1]?, pls[c.2]? with
    | some p1, some p2 =>
        some (DrawOp.line (p1.px, p1.py) (p2.px, p2.py) (boneThickness p1 p2))
    | _, _ => none

/-- The joint circles: for every enumerated pixel landmark, a filled circle
plus a dark border circle. -/
def jointOps (pls : List PixelLandmark) : List DrawOp :=
  (pls.enum.map fun ip =>
    [DrawOp.circle (ip.2.px, ip.2.py) (jointRadius ip.2) (jointColor ip.1),
     DrawOp.circle (ip.2.px, ip.2.py) (jointRadius ip.2) (50, 50, 50)]).flatten

/-- draw_enhanced_landmarks_replay: early exit on an empty frame, otherwise
palm polygon, then bones, then joints. -/
def draw_enhanced_landmarks_replay (frame : LandmarkFrame) (w h : ℚ) : List DrawOp :=
  if frame = [] then []
  else
    let pls := pixelLandmarks frame w h
    palmOps pls ++ boneOps pls ++ jointOps pls

/-- The landmark indices the drawing function reads from pixel_landmarks,
each access in the source being guarded by the comparisons shown: palm
vertices with idx < len, connection endpoints with both ends < len, and
the enumeration of the whole list in the joint loop. -/
def renderAccessedIndices (frame : LandmarkFrame) (w h : ℚ) : List ℕ :=
  let pls := pixelLandmarks frame w h
  PALM_INDICES.filter (fun idx => decide (idx < pls.length)) ++
    ((HAND_CONNECTIONS.filter fun c =>
        decide (c.1 < pls.length) && decide (c.2 < pls.length)).map
      fun c => [c.1, c.2]).flatten ++
    List.range pls.length

/-! ## gui.py: the HandMotionApp session state machine -/

/-- Python str.strip(): leading and trailing whitespace removed. -/
def pyStrip (s : String) : String :=
  String.mk (((s.data.dropWhile Char.isWhitespace).reverse.dropWhile
    Char.isWhitespace).reverse)

/-- The warnings and errors surfaced by toggle_recording (messagebox calls
and early returns). -/
inductive GuiWarning where
  | recordingBlocked
  | cameraError
  | inputError
deriving DecidableEq, Repr

/-- The fields of HandMotionApp that participate in the record/replay
session logic. -/
structure AppState where
  is_recording : Bool
  recorded_frames_data : List LandmarkFrame
  current_action_name : String
  camera_active : Bool
  replay_active : Bool
  replay_paused : Bool
  current_replay_frame_idx : ℕ
  loaded_replay_data : Option JsonRecordingDoc
  estimated_fps_recording : ℚ
deriving DecidableEq, Repr

/-- The state set up in HandMotionApp.__init__ (camOk is whether the
initial init_camera call managed to open the webcam). -/
def initState (camOk : Bool) : AppState :=
  { is_recording := false, recorded_frames_data := [],
    current_action_name := "my_action", camera_active := camOk,
    replay_active := false, replay_paused := false,
    current_replay_frame_idx := 0, loaded_replay_data := none,
    estimated_fps_recording := 30 }

/-- init_camera: only acts when the camera is inactive; camOk models
whether cv2.VideoCapture(0) opened. -/
def init_camera (camOk : Bool) (st : AppState) : AppState :=
  if st.camera_active then st else { st with camera_active := camOk }

/-- save_current_recording: returns with a status message when the buffer
is empty; otherwise builds the document (fps taken from
estimated_fps_recording) and attempts the write.  ioFails models an
IOError from the write: the error is shown, no file results, and in
either case recorded_frames_data is cleared afterwards (the assignment
sits after the try/except block).  Returns the new state and the document
written, if any. -/
def save_current_recording (ioFails : Bool) (st : AppState) :
    AppState × Option RecordingDoc :=
  if st.recorded_frames_data = [] then (st, none)
  else
    let doc : RecordingDoc :=
      { actionName := pyStrip st.current_action_name,
        fps := st.estimated_fps_recording,
        frameCount := st.recorded_frames_data.length,
        frames := st.recorded_frames_data }
    ({ st with recorded_frames_data := [] }, if ioFails then none else some doc)

/-- toggle_recording: blocked with a warning while a replay is active;
then ensures the camera; then either stops (and saves) or starts a
recording, the start requiring a non-empty stripped action name. -/
def toggle_recording (camOk ioFails : Bool) (st : AppState) :
    AppState × Option RecordingDoc × Option GuiWarning :=
  if st.replay_active then (st, none, some GuiWarning.recordingBlocked)
  else
    let st1 := init_camera camOk st
    if st1.camera_active = false then (st1, none, some GuiWarning.cameraError)
    else if st1.is_recording then
      let r := save_current_recording ioFails { st1 with is_recording := false }
      (r.1, r.2, none)
    else if pyStrip st1.current_action_name = "" then
      (st1, none, some GuiWarning.inputError)
    else
      ({ st1 with is_recording := true, recorded_frames_data := [] }, none, none)

/-- stop_replay: clears every replay field, resets the cursor, and
re-initializes the camera. -/
def stop_replay (camOk : Bool) (st : AppState) : AppState :=
  init_camera camOk
    { st with
        replay_active := false
        replay_paused := false
        loaded_replay_data := none
        current_replay_frame_idx := 0 }

/-- update_replay_frame: early exit unless actively replaying with loaded
data; shows the frame at the cursor and advances it, or stops the replay
at the end of the sequence. -/
def update_replay_frame (camOk : Bool) (st : AppState) : AppState :=
  if st.replay_active = false then st
  else
    match st.loaded_replay_data with
    | none => st
    | some doc =>
      if st.replay_paused then st
      else if st.current_replay_frame_idx < (doc.frames.getD []).length then
        { st with current_replay_frame_idx := st.current_replay_frame_idx + 1 }
      else stop_replay camOk st

/-- update_video_feed: during an unpaused replay it advances the replay;
otherwise, with an active camera delivering a frame, it appends the frame
to the buffer when recording and a hand was detected. -/
def update_video_feed (camOk : Bool) (captured : Option LandmarkFrame)
    (st : AppState) : AppState :=
  if st.replay_active ∧ ¬st.replay_paused then update_replay_frame camOk st
  else if st.camera_active = false then st
  else
    match captured with
    | none => st
    | some f =>
      if st.is_recording ∧ f ≠ [] then
        { st with recorded_frames_data := st.recorded_frames_data ++ [f] }
      else st

/-- play_selected_recording: requires a selection; blocked while recording;
stores the load result (None on an open/parse exception); rejects a
document without a non-empty frames field; otherwise enters replay at
cursor 0 and releases the camera. -/
def play_selected_recording (hasSelection : Bool)
    (loadResult : Option JsonRecordingDoc) (st : AppState) : AppState :=
  if hasSelection = false then st
  else if st.is_recording then st
  else
    match loadResult with
    | none => { st with loaded_replay_data := none }
    | some doc =>
      if (doc.frames.getD []) = [] then { st with loaded_replay_data := some doc }
      else
        { st with
            loaded_replay_data := some doc
            replay_active := true
            replay_paused := false
            current_replay_frame_idx := 0
            camera_active := false }

/-- toggle_pause_replay: flips the pause flag while a replay is active. -/
def toggle_pause_replay (st : AppState) : AppState :=
  if st.replay_active = false then st
  else { st with replay_paused := !st.replay_paused }

/-- Editing the action-name entry (disabled while recording). -/
def set_action_name (s : String) (st : AppState) : AppState :=
  if st.is_recording then st else { st with current_action_name := s }

/-- One user- or timer-driven transition of the GUI session. -/
inductive Step : AppState → AppState → Prop where
  | toggleRec (camOk ioFails : Bool) (st : AppState) :
      Step st (toggle_recording camOk ioFails st).1
  | videoTick (camOk : Bool) (captured : Option LandmarkFrame) (st : AppState) :
      Step st (update_video_feed camOk captured st)
  | play (hasSelection : Bool) (loadResult : Option JsonRecordingDoc) (st : AppState) :
      Step st (play_selected_recording hasSelection loadResult st)
  | pauseToggle (st : AppState) : Step st (toggle_pause_replay st)
  | stopReplayBtn (camOk : Bool) (st : AppState) : Step st (stop_replay camOk st)
  | setName (s : String) (st : AppState) : Step st (set_action_name s st)

/-- The session states reachable from application start-up. -/
inductive Reachable : AppState → Prop where
  | init (camOk : Bool) : Reachable (initState camOk)
  | step {st st' : AppState} : Reachable st → Step st st' → Reachable st'

/-- The session invariant: recording and replaying are mutually exclusive,
and the fps estimate keeps its initial value 30.0 (it is never
reassigned anywhere in gui.py). -/
def AppInv (st : AppState) : Prop :=
  ¬(st.is_recording = true ∧ st.replay_active = true) ∧
    st.estimated_fps_recording = 30

/-! ## Concrete values used by witnesses and counterexamples -/

/-- A landmark point with in-range coordinates. -/
def demoPoint : LandmarkPoint := { x := 1/2, y := 1/2, z := 0, visibility := 1 }

/-- A sphere tracking landmark index 0. -/
def demoSphere : InteractiveSphere :=
  { pos_normalized := (1/2, 1/2), radius_pixels := 10,
    color_default := (0, 0, 255), color_collided := (255, 0, 0),
    interaction_landmark_idx := 0, is_currently_collided := false }

/-- A one-point frame for the sphere witness. -/
def demoSphereFrame : LandmarkFrame := [demoPoint]

/-- A loaded document missing fps and actionName but carrying frames. -/
def cxLoadedDoc : JsonRecordingDoc :=
  { actionName := none, fps := none, frameCount := some 1, frames := some [[demoPoint]] }

/-- A tracker state holding one recorded frame, about to be saved. -/
def cxSaveState : TrackerState :=
  { is_recording := true, recorded_frames := [[demoPoint]], current_action_name := "wave" }



/-- The two-point frame used to exhibit the truncation in the bone
thickness: depth scales 1 and 0, so the connection (0, 1) has average
depth scale one half. -/
def cxFrame8 : LandmarkFrame :=
  [{ x := 0, y := 0, z := 0, visibility := 1 },
   { x := 0, y := 1, z := 1, visibility := 1 }]

/-- The first pixel landmark of cxFrame8 on a 10 by 10 canvas. -/
def cxP1 : PixelLandmark := { px := 0, py := 0, z := 0, depth_scale := 1 }

/-- The second pixel landmark of cxFrame8 on a 10 by 10 canvas. -/
def cxP2 : PixelLandmark := { px := 0, py := 10, z := 1, depth_scale := 0 }

/-- The GUI state right after pressing Start Recording from start-up. -/
def guiRecStart : AppState := (toggle_recording true false (initState true)).1

/-- The GUI state after one camera tick delivered a one-point frame while
recording. -/
def guiRecState : AppState := update_video_feed true (some [demoPoint]) guiRecStart

/-- The document the GUI writes when saving from guiRecState. -/
def guiSavedDoc : RecordingDoc :=
  { actionName := "my_action", fps := 30, frameCount := 1, frames := [[demoPoint]] }

/-- The GUI state right after starting a replay of cxLoadedDoc from
start-up. -/
def guiReplayState : AppState :=
  play_selected_recording true (some cxLoadedDoc) (initState true)


/-! ## Helper lemmas -/

/-- While recording, a run of non-empty captured frames is appended to the
buffer in order. -/
lemma run_capture_nonempty (fs : List LandmarkFrame) :
    ∀ st : TrackerState, st.is_recording = true → (∀ f ∈ fs, f ≠ []) →
      run_capture st fs = { st with recorded_frames := st.recorded_frames ++ fs } := by
  induction fs with
  | nil => intro st _ _; simp [run_capture]
  | cons f fs ih =>
    intro st hrec hne
    have hf : f ≠ [] := hne f (by simp)
    have hrf : record_frame st f =
        { st with recorded_frames := st.recorded_frames ++ [f] } := by
      simp [record_frame, hrec, hf]
    show (f :: fs).foldl record_frame st = _
    rw [List.foldl_cons, hrf]
    have := ih { st with recorded_frames := st.recorded_frames ++ [f] }
      (by simp [hrec]) (fun g hg => hne g (by simp [hg]))
    rw [run_capture] at this
    rw [this]
    simp

/-- Empty captured frames are dropped, never buffered. -/
lemma run_capture_all_empty (fs : List LandmarkFrame) :
    ∀ st : TrackerState, (∀ f ∈ fs, f = []) → run_capture st fs = st := by
  induction fs with
  | nil => intro st _; simp [run_capture]
  | cons f fs ih =>
    intro st he
    have hf : f = [] := he f (by simp)
    have hrf : record_frame st f = st := by simp [record_frame, hf]
    show (f :: fs).foldl record_frame st = _
    rw [List.foldl_cons, hrf]
    exact ih st (fun g hg => he g (by simp [hg]))

/-! ## Claim theorems -/

/-- Claim C1: recording a sequence of non-empty frames, saving, and loading
the saved document yields a frameCount equal to the number of frames and
the exact original frames in order. -/
theorem record_save_load_round_trip (captured : List LandmarkFrame) (name : String)
    (fps : ℚ) (h1 : captured ≠ []) (h2 : ∀ f ∈ captured, f ≠ []) :
    ∃ doc : RecordingDoc,
      (save_recording (run_capture (start_recording name) captured) fps false).2 =
        some doc ∧
      doc.frameCount = captured.length ∧ doc.frames = captured ∧
      replay_load (docToJson doc) = Except.ok (captured, fps, name) := by
  rw [run_capture_nonempty captured (start_recording name) rfl h2]
  refine ⟨⟨name, fps, captured.length, captured⟩, ?_, rfl, rfl, ?_⟩
  · simp [save_recording, start_recording, h1]
  · simp [replay_load, docToJson, h1]

/-- Claim C1 witness: one recorded frame with action name wave at 30 fps. -/
theorem record_save_load_round_trip_witness :
    ∃ doc : RecordingDoc,
      (save_recording (run_capture (start_recording "wave") [[demoPoint]]) 30 false).2 =
        some doc ∧
      doc.frameCount = [[demoPoint]].length ∧ doc.frames = [[demoPoint]] ∧
      replay_load (docToJson doc) = Except.ok ([[demoPoint]], 30, "wave") :=
  record_save_load_round_trip [[demoPoint]] "wave" 30 (by simp)
    (by intro f hf; simp at hf; simp [hf])

/-- Claim C2 counterexample: a document with frames present but fps and
actionName absent loads successfully with the defaults 30.0 and Unknown
Action, instead of failing. -/
theorem load_missing_fps_defaults_counterexample :
    cxLoadedDoc.fps = none ∧ cxLoadedDoc.actionName = none ∧
    replay_load cxLoadedDoc = Except.ok ([[demoPoint]], 30, "Unknown Action") := by
  refine ⟨rfl, rfl, ?_⟩
  simp [replay_load, cxLoadedDoc]

/-- Claim C2 amended: loading fails exactly when the frames field is absent
or empty; a missing fps is silently defaulted to 30.0 and a missing
actionName to Unknown Action. -/
theorem replay_load_fails_iff_frames_missing_or_empty (doc : JsonRecordingDoc) :
    (replay_load doc = Except.error LoadFailure.noFrames ↔ doc.frames.getD [] = []) ∧
    (replay_load doc = Except.ok (doc.frames.getD [], doc.fps.getD 30,
      doc.actionName.getD "Unknown Action") ↔ doc.frames.getD [] ≠ []) := by
  unfold replay_load
  by_cases hc : doc.frames.getD [] = [] <;> simp [hc]

/-- Claim C3 counterexample: a failed write (IOError) still clears the
recorded-frames buffer, so the frames cannot be saved again. -/
theorem save_io_failure_discards_frames_counterexample :
    cxSaveState.recorded_frames = [[demoPoint]] ∧
    (save_recording cxSaveState 30 true).2 = none ∧
    (save_recording cxSaveState 30 true).1.recorded_frames = [] := by
  refine ⟨rfl, ?_, ?_⟩ <;> simp [save_recording, cxSaveState]

/-- Claim C3 amended: after any save attempt on a non-empty buffer the
buffer is cleared, both on an IOError (in which case no document is
written) and on success; retrying the save without re-recording is
impossible. -/
theorem save_always_clears_buffer (st : TrackerState) (fps : ℚ)
    (h : st.recorded_frames ≠ []) :
    (save_recording st fps true).1 = { st with recorded_frames := [] } ∧
    (save_recording st fps true).2 = none ∧
    (save_recording st fps false).1 = { st with recorded_frames := [] } := by
  simp [save_recording, h]

/-- Claim C3 amended witness at a concrete one-frame buffer. -/
theorem save_always_clears_buffer_witness :
    (save_recording cxSaveState 30 true).1 = { cxSaveState with recorded_frames := [] } ∧
    (save_recording cxSaveState 30 true).2 = none ∧
    (save_recording cxSaveState 30 false).1 = { cxSaveState with recorded_frames := [] } :=
  save_always_clears_buffer cxSaveState 30 (by simp [cxSaveState])

/-- Claim C5: a session that retained zero non-empty frames saves nothing:
no document is produced and the buffer is empty. -/
theorem stop_with_no_retained_frames (captured : List LandmarkFrame) (name : String)
    (fps : ℚ) (ioFails : Bool) (he : ∀ f ∈ captured, f = []) :
    (save_recording (run_capture (start_recording name) captured) fps ioFails).2 = none ∧
    (run_capture (start_recording name) captured).recorded_frames = [] := by
  rw [run_capture_all_empty captured (start_recording name) he]
  simp [save_recording, start_recording]

/-- Claim C5 witness: two captured frames, both empty. -/
theorem stop_with_no_retained_frames_witness :
    (save_recording (run_capture (start_recording "wave") [[], []]) 30 false).2 = none ∧
    (run_capture (start_recording "wave") [[], []]).recorded_frames = [] :=
  stop_with_no_retained_frames [[], []] "wave" 30 false
    (by intro f hf; simp at hf; simp [hf])


/-- Claim C6: with a point present at the tracked index, the update reports
a collision exactly when the squared pixel distance is strictly below the
squared threshold (radius times 1.2); at exact equality no collision is
reported. -/
theorem sphere_collision_boundary (s : InteractiveSphere) (frame : LandmarkFrame)
    (w h : ℚ) (lm : LandmarkPoint)
    (hget : frame[s.interaction_landmark_idx]? = some lm) :
    ((update_state s frame w h).2 = true ↔
      (sphereLandmarkDistSq s lm w h : ℚ) < collisionThresholdSq s) ∧
    ((sphereLandmarkDistSq s lm w h : ℚ) = collisionThresholdSq s →
      (update_state s frame w h).2 = false) := by
  unfold update_state
  rw [hget]
  by_cases hc : (sphereLandmarkDistSq s lm w h : ℚ) < collisionThresholdSq s <;>
    simp [hc]
  intro heq
  rw [heq] at hc
  exact absurd hc (lt_irrefl _)

/-- Claim C6 witness: a sphere of radius ten at the centre of a 100 by 100
canvas with the tracked landmark at the same point. -/
theorem sphere_collision_boundary_witness :
    ((update_state demoSphere demoSphereFrame 100 100).2 = true ↔
      (sphereLandmarkDistSq demoSphere demoPoint 100 100 : ℚ) <
        collisionThresholdSq demoSphere) ∧
    ((sphereLandmarkDistSq demoSphere demoPoint 100 100 : ℚ) =
        collisionThresholdSq demoSphere →
      (update_state demoSphere demoSphereFrame 100 100).2 = false) :=
  sphere_collision_boundary demoSphere demoSphereFrame 100 100 demoPoint
    (by simp [demoSphereFrame, demoSphere])

/-- Claim C7: on collision the position snaps exactly to the landmark
coordinates; without a collision (including a missing tracked point) the
position is unchanged; the radius, colors and tracked index never change,
and the stored collided flag agrees with the returned value. -/
theorem sphere_update_effect (s : InteractiveSphere) (frame : LandmarkFrame)
    (w h : ℚ) :
    ((update_state s frame w h).2 = true →
      ∃ lm, frame[s.interaction_landmark_idx]? = some lm ∧
        (update_state s frame w h).1.pos_normalized = (lm.x, lm.y)) ∧
    ((update_state s frame w h).2 = false →
      (update_state s frame w h).1.pos_normalized = s.pos_normalized) ∧
    (update_state s frame w h).1.radius_pixels = s.radius_pixels ∧
    (update_state s frame w h).1.color_default = s.color_default ∧
    (update_state s frame w h).1.color_collided = s.color_collided ∧
    (update_state s frame w h).1.interaction_landmark_idx = s.interaction_landmark_idx ∧
    (update_state s frame w h).1.is_currently_collided = (update_state s frame w h).2 := by
  unfold update_state
  cases hget : frame[s.interaction_landmark_idx]? with
  | none => simp
  | some lm =>
    by_cases hc : (sphereLandmarkDistSq s lm w h : ℚ) < collisionThresholdSq s <;>
      simp [hc]

/-- Claim C7 witness at the demo sphere and frame. -/
theorem sphere_update_effect_witness :
    ((update_state demoSphere demoSphereFrame 100 100).2 = true →
      ∃ lm, demoSphereFrame[demoSphere.interaction_landmark_idx]? = some lm ∧
        (update_state demoSphere demoSphereFrame 100 100).1.pos_normalized =
          (lm.x, lm.y)) ∧
    ((update_state demoSphere demoSphereFrame 100 100).2 = false →
      (update_state demoSphere demoSphereFrame 100 100).1.pos_normalized =
        demoSphere.pos_normalized) ∧
    (update_state demoSphere demoSphereFrame 100 100).1.radius_pixels =
      demoSphere.radius_pixels ∧
    (update_state demoSphere demoSphereFrame 100 100).1.color_default =
      demoSphere.color_default ∧
    (update_state demoSphere demoSphereFrame 100 100).1.color_collided =
      demoSphere.color_collided ∧
    (update_state demoSphere demoSphereFrame 100 100).1.interaction_landmark_idx =
      demoSphere.interaction_landmark_idx ∧
    (update_state demoSphere demoSphereFrame 100 100).1.is_currently_collided =
      (update_state demoSphere demoSphereFrame 100 100).2 :=
  sphere_update_effect demoSphere demoSphereFrame 100 100


/-- A min fold over z values is bounded by its initial accumulator. -/
lemma foldl_min_z_le (ps : List LandmarkPoint) (a : ℚ) :
    ps.foldl (fun m q => min m q.z) a ≤ a := by
  induction ps generalizing a with
  | nil => simp
  | cons q ps ih =>
    simp only [List.foldl_cons]
    exact le_trans (ih (min a q.z)) (min_le_left a q.z)

/-- A min fold over z values is bounded by the z of every member. -/
lemma foldl_min_z_le_mem (ps : List LandmarkPoint) {q : LandmarkPoint} (hq : q ∈ ps) :
    ∀ a : ℚ, ps.foldl (fun m p => min m p.z) a ≤ q.z := by
  induction ps with
  | nil => cases hq
  | cons r ps ih =>
    intro a
    rcases List.mem_cons.mp hq with rfl | hq2
    · exact le_trans (foldl_min_z_le ps (min a q.z)) (min_le_right a q.z)
    · exact ih hq2 (min a r.z)

/-- A max fold over z values dominates its initial accumulator. -/
lemma le_foldl_max_z (ps : List LandmarkPoint) (a : ℚ) :
    a ≤ ps.foldl (fun m q => max m q.z) a := by
  induction ps generalizing a with
  | nil => simp
  | cons q ps ih =>
    simp only [List.foldl_cons]
    exact le_trans (le_max_left a q.z) (ih (max a q.z))

/-- A max fold over z values dominates the z of every member. -/
lemma le_foldl_max_z_mem (ps : List LandmarkPoint) {q : LandmarkPoint} (hq : q ∈ ps) :
    ∀ a : ℚ, q.z ≤ ps.foldl (fun m p => max m p.z) a := by
  induction ps with
  | nil => cases hq
  | cons r ps ih =>
    intro a
    rcases List.mem_cons.mp hq with rfl | hq2
    · exact le_trans (le_max_right a q.z) (le_foldl_max_z ps (max a q.z))
    · exact ih hq2 (max a r.z)

/-- frameMinZ is a lower bound on the z of every point of the frame. -/
lemma frameMinZ_le_of_mem {frame : LandmarkFrame} {p : LandmarkPoint}
    (hp : p ∈ frame) : frameMinZ frame ≤ p.z := by
  cases frame with
  | nil => cases hp
  | cons q ps =>
    rcases List.mem_cons.mp hp with rfl | h2
    · exact foldl_min_z_le ps p.z
    · exact foldl_min_z_le_mem ps h2 q.z

/-- frameMaxZ is an upper bound on the z of every point of the frame. -/
lemma le_frameMaxZ_of_mem {frame : LandmarkFrame} {p : LandmarkPoint}
    (hp : p ∈ frame) : p.z ≤ frameMaxZ frame := by
  cases frame with
  | nil => cases hp
  | cons q ps =>
    rcases List.mem_cons.mp hp with rfl | h2
    · exact le_foldl_max_z ps p.z
    · exact le_foldl_max_z_mem ps h2 q.z

/-- The depth scale of every point of its frame lies in the unit
interval. -/
lemma depthScaleOf_bounds {frame : LandmarkFrame} {p : LandmarkPoint}
    (hp : p ∈ frame) :
    0 ≤ depthScaleOf frame p.z ∧ depthScaleOf frame p.z ≤ 1 := by
  have hmin : frameMinZ frame ≤ p.z := frameMinZ_le_of_mem hp
  have hmax : p.z ≤ frameMaxZ frame := le_frameMaxZ_of_mem hp
  unfold depthScaleOf zRangeOf
  split_ifs with hgt hne hne
  · have hpos : 0 < frameMaxZ frame - frameMinZ frame := sub_pos.mpr hgt
    constructor
    · exact div_nonneg (by linarith) (le_of_lt hpos)
    · rw [div_le_one hpos]
      linarith
  · exact absurd (sub_ne_zero_of_ne (ne_of_gt hgt)) hne
  · push_neg at hgt
    constructor
    · exact div_nonneg (by linarith) (by norm_num)
    · rw [div_le_one (by norm_num : (0:ℚ) < 1)]
      linarith
  · norm_num at hne

/-- Every pixel landmark of a frame has its depth scale in the unit
interval. -/
lemma pixelLandmarks_depth_bounds {frame : LandmarkFrame} {w h : ℚ}
    {pl : PixelLandmark} (hpl : pl ∈ pixelLandmarks frame w h) :
    0 ≤ pl.depth_scale ∧ pl.depth_scale ≤ 1 := by
  unfold pixelLandmarks at hpl
  rw [List.mem_map] at hpl
  obtain ⟨p, hp, rfl⟩ := hpl
  exact depthScaleOf_bounds hp

/-- The bone thickness computed from unit-interval depth scales lies in
the interval from one to six. -/
lemma boneThickness_bounds {p1 p2 : PixelLandmark}
    (h1a : 0 ≤ p1.depth_scale) (h1b : p1.depth_scale ≤ 1)
    (h2a : 0 ≤ p2.depth_scale) (h2b : p2.depth_scale ≤ 1) :
    1 ≤ boneThickness p1 p2 ∧ boneThickness p1 p2 ≤ 6 := by
  unfold boneThickness pyInt
  have h0 : (0:ℚ) ≤ (p1.depth_scale + p2.depth_scale) / 2 * 5 := by
    apply mul_nonneg _ (by norm_num)
    exact div_nonneg (by linarith) (by norm_num)
  have h5 : (p1.depth_scale + p2.depth_scale) / 2 * 5 ≤ 5 := by linarith
  rw [if_pos h0]
  constructor
  · have : (0:ℤ) ≤ ⌊(p1.depth_scale + p2.depth_scale) / 2 * 5⌋ :=
      Int.floor_nonneg.mpr h0
    omega
  · have hle : ⌊(p1.depth_scale + p2.depth_scale) / 2 * 5⌋ ≤ ⌊(5:ℚ)⌋ :=
      Int.floor_le_floor h5
    have h55 : ⌊(5:ℚ)⌋ = 5 := by norm_num
    omega

/-- The pixel landmark list has the same length as the frame. -/
lemma pixelLandmarks_length (frame : LandmarkFrame) (w h : ℚ) :
    (pixelLandmarks frame w h).length = frame.length :=
  List.length_map frame _

/-- The pixel landmarks of cxFrame8 on a 10 by 10 canvas. -/
lemma cxFrame8_pixelLandmarks : pixelLandmarks cxFrame8 10 10 = [cxP1, cxP2] := by
  simp [pixelLandmarks, cxFrame8, cxP1, cxP2, depthScaleOf, zRangeOf,
    frameMinZ, frameMaxZ, pyInt]

/-- The bone thickness the renderer computes for the endpoints of
cxFrame8. -/
lemma cxFrame8_boneThickness : boneThickness cxP1 cxP2 = 3 := by
  rw [boneThickness, cxP1, cxP2, pyInt]
  norm_num

/-- The renderer draws the bone between indices 0 and 1 of cxFrame8 with
thickness three. -/
lemma cxFrame8_line_mem :
    DrawOp.line (0, 0) (0, 10) 3 ∈ draw_enhanced_landmarks_replay cxFrame8 10 10 := by
  unfold draw_enhanced_landmarks_replay
  rw [if_neg (by simp [cxFrame8]), cxFrame8_pixelLandmarks]
  refine List.mem_append.mpr (Or.inl (List.mem_append.mpr (Or.inr ?_)))
  unfold boneOps HAND_CONNECTIONS
  rw [← cxFrame8_boneThickness]
  simp [cxP1, cxP2]

/-- Claim C8 counterexample: on cxFrame8 the renderer draws the bone
between indices 0 and 1 with thickness three, while the claimed rounding
formula applied to the same two endpoints gives four. -/
theorem bone_thickness_not_round_counterexample :
    cxP1 ∈ pixelLandmarks cxFrame8 10 10 ∧
    cxP2 ∈ pixelLandmarks cxFrame8 10 10 ∧
    DrawOp.line (0, 0) (0, 10) 3 ∈ draw_enhanced_landmarks_replay cxFrame8 10 10 ∧
    boneThickness cxP1 cxP2 = 3 ∧
    boneThicknessSpec cxP1 cxP2 = 4 := by
  refine ⟨by rw [cxFrame8_pixelLandmarks]; simp,
    by rw [cxFrame8_pixelLandmarks]; simp,
    cxFrame8_line_mem, cxFrame8_boneThickness, ?_⟩
  rw [boneThicknessSpec, cxP1, cxP2, round_eq]
  norm_num


/-- Claim C8 amended: every bone line drawn by the renderer takes its
thickness from the truncation formula (one plus the integer part of five
times the average endpoint depth scale) applied to two pixel landmarks of
the frame, and that thickness always lies between one and six. -/
theorem line_thickness_truncated_in_range (frame : LandmarkFrame) (w h : ℚ)
    (a b : ℤ × ℤ) (t : ℤ)
    (hmem : DrawOp.line a b t ∈ draw_enhanced_landmarks_replay frame w h) :
    1 ≤ t ∧ t ≤ 6 ∧
    ∃ p1 p2, p1 ∈ pixelLandmarks frame w h ∧ p2 ∈ pixelLandmarks frame w h ∧
      t = boneThickness p1 p2 := by
  unfold draw_enhanced_landmarks_replay at hmem
  split at hmem
  · simp at hmem
  · rw [List.mem_append, List.mem_append] at hmem
    have hbone : DrawOp.line a b t ∈ boneOps (pixelLandmarks frame w h) := by
      rcases hmem with (hp | hb) | hj
      · exfalso
        revert hp
        simp only [palmOps]
        split <;> simp
      · exact hb
      · exfalso
        unfold jointOps at hj
        rw [List.mem_flatten] at hj
        obtain ⟨l, hl, hil⟩ := hj
        rw [List.mem_map] at hl
        obtain ⟨ip, _, rfl⟩ := hl
        simp at hil
    unfold boneOps at hbone
    rw [List.mem_filterMap] at hbone
    obtain ⟨c, _, hc⟩ := hbone
    cases h1 : (pixelLandmarks frame w h)[c.1]? with
    | none => rw [h1] at hc; simp at hc
    | some p1 =>
      cases h2 : (pixelLandmarks frame w h)[c.2]? with
      | none => rw [h1, h2] at hc; simp at hc
      | some p2 =>
        rw [h1, h2] at hc
        simp only [Option.some.injEq, DrawOp.line.injEq] at hc
        obtain ⟨ha, hb2, ht⟩ := hc
        have hm1 : p1 ∈ pixelLandmarks frame w h := List.getElem?_mem h1
        have hm2 : p2 ∈ pixelLandmarks frame w h := List.getElem?_mem h2
        have hd1 := pixelLandmarks_depth_bounds hm1
        have hd2 := pixelLandmarks_depth_bounds hm2
        have hbt := boneThickness_bounds hd1.1 hd1.2 hd2.1 hd2.2
        subst ht
        exact ⟨hbt.1, hbt.2, p1, p2, hm1, hm2, rfl⟩

/-- Claim C8 amended witness: the bone of cxFrame8 drawn with thickness
three. -/
theorem line_thickness_truncated_in_range_witness :
    1 ≤ (3:ℤ) ∧ (3:ℤ) ≤ 6 ∧
    ∃ p1 p2, p1 ∈ pixelLandmarks cxFrame8 10 10 ∧ p2 ∈ pixelLandmarks cxFrame8 10 10 ∧
      (3:ℤ) = boneThickness p1 p2 :=
  line_thickness_truncated_in_range cxFrame8 10 10 (0, 0) (0, 10) 3
    cxFrame8_line_mem

/-- Claim C9: every landmark index the drawing function reads is within
the bounds of the frame, whatever the frame length (the guards skip palm
vertices and connections that reference missing indices, and the joint
loop only enumerates existing landmarks). -/
theorem render_index_accesses_in_bounds (frame : LandmarkFrame) (w h : ℚ) (i : ℕ)
    (hi : i ∈ renderAccessedIndices frame w h) : i < frame.length := by
  unfold renderAccessedIndices at hi
  simp only [pixelLandmarks_length, List.mem_append, List.mem_filter,
    List.mem_flatten, List.mem_map, List.mem_range, decide_eq_true_eq,
    Bool.and_eq_true] at hi
  rcases hi with (⟨_, hlt⟩ | ⟨l, ⟨c, ⟨_, hc12⟩, rfl⟩, hil⟩) | hlt
  · exact hlt
  · rcases List.mem_cons.mp hil with rfl | hil2
    · exact hc12.1
    · rcases List.mem_cons.mp hil2 with rfl | hnil
      · exact hc12.2
      · cases hnil
  · exact hlt

/-- Claim C9 witness: index one of the two-point frame cxFrame8, which is
far shorter than the canonical twenty-one points. -/
theorem render_index_accesses_in_bounds_witness : 1 < cxFrame8.length :=
  render_index_accesses_in_bounds cxFrame8 10 10 1
    (by simp [renderAccessedIndices, pixelLandmarks, cxFrame8])


/-- The invariant holds at start-up. -/
lemma appInv_initState (camOk : Bool) : AppInv (initState camOk) := by
  simp [AppInv, initState]

/-- toggle_recording preserves the session invariant. -/
lemma appInv_toggle_recording (camOk ioFails : Bool) (st : AppState)
    (h : AppInv st) : AppInv (toggle_recording camOk ioFails st).1 := by
  obtain ⟨hmx, hfps⟩ := h
  simp only [toggle_recording, init_camera, save_current_recording, AppInv]
  split_ifs <;> simp_all

/-- update_video_feed preserves the session invariant. -/
lemma appInv_update_video_feed (camOk : Bool) (captured : Option LandmarkFrame)
    (st : AppState) (h : AppInv st) :
    AppInv (update_video_feed camOk captured st) := by
  obtain ⟨hmx, hfps⟩ := h
  simp only [update_video_feed, update_replay_frame, stop_replay, init_camera, AppInv]
  cases captured <;> cases hld : st.loaded_replay_data <;> split_ifs <;>
    (try simp_all) <;> (try (split_ifs <;> simp_all))

/-- play_selected_recording preserves the session invariant. -/
lemma appInv_play_selected (hasSelection : Bool)
    (loadResult : Option JsonRecordingDoc) (st : AppState) (h : AppInv st) :
    AppInv (play_selected_recording hasSelection loadResult st) := by
  obtain ⟨hmx, hfps⟩ := h
  simp only [play_selected_recording, AppInv]
  cases loadResult <;> split_ifs <;>
    (try simp_all) <;> (try (split_ifs <;> simp_all))

/-- toggle_pause_replay preserves the session invariant. -/
lemma appInv_toggle_pause (st : AppState) (h : AppInv st) :
    AppInv (toggle_pause_replay st) := by
  obtain ⟨hmx, hfps⟩ := h
  simp only [toggle_pause_replay, AppInv]
  split_ifs <;> simp_all

/-- stop_replay preserves the session invariant. -/
lemma appInv_stop_replay (camOk : Bool) (st : AppState) (h : AppInv st) :
    AppInv (stop_replay camOk st) := by
  obtain ⟨hmx, hfps⟩ := h
  simp only [stop_replay, init_camera, AppInv]
  split_ifs <;> simp_all

/-- set_action_name preserves the session invariant. -/
lemma appInv_set_action_name (s : String) (st : AppState) (h : AppInv st) :
    AppInv (set_action_name s st) := by
  obtain ⟨hmx, hfps⟩ := h
  simp only [set_action_name, AppInv]
  split_ifs <;> simp_all

/-- Every step of the GUI session preserves the invariant. -/
lemma appInv_step {st st2 : AppState} (h : AppInv st) (hs : Step st st2) :
    AppInv st2 := by
  cases hs with
  | toggleRec camOk ioFails st => exact appInv_toggle_recording camOk ioFails st h
  | videoTick camOk captured st => exact appInv_update_video_feed camOk captured st h
  | play hasSelection loadResult st => exact appInv_play_selected hasSelection loadResult st h
  | pauseToggle st => exact appInv_toggle_pause st h
  | stopReplayBtn camOk st => exact appInv_stop_replay camOk st h
  | setName s st => exact appInv_set_action_name s st h

/-- Every reachable session state satisfies the invariant. -/
lemma reachable_appInv {st : AppState} (h : Reachable st) : AppInv st := by
  induction h with
  | init camOk => exact appInv_initState camOk
  | step _ hs ih => exact appInv_step ih hs

/-- Claim C4: in every reachable session state, recording and replaying
are never simultaneously active, and while a replay is active
toggle_recording fails with the mode-conflict warning, leaving the whole
state (cursor included) unchanged and producing no document. -/
theorem recording_replay_mutual_exclusion (st : AppState) (camOk ioFails : Bool)
    (h : Reachable st) :
    ¬(st.is_recording = true ∧ st.replay_active = true) ∧
    (st.replay_active = true → toggle_recording camOk ioFails st =
      (st, none, some GuiWarning.recordingBlocked)) := by
  refine ⟨(reachable_appInv h).1, fun hrep => ?_⟩
  unfold toggle_recording
  simp [hrep]

/-- Claim C4 witness: the reachable state just after a replay is started
from start-up. -/
theorem recording_replay_mutual_exclusion_witness :
    ¬(guiReplayState.is_recording = true ∧ guiReplayState.replay_active = true) ∧
    (guiReplayState.replay_active = true →
      toggle_recording true false guiReplayState =
        (guiReplayState, none, some GuiWarning.recordingBlocked)) :=
  recording_replay_mutual_exclusion guiReplayState true false
    (Reachable.step (Reachable.init true)
      (Step.play true (some cxLoadedDoc) (initState true)))

/-- Claim C10: every document saved through the GUI carries fps exactly 30,
because estimated_fps_recording is initialized to 30.0 and never
reassigned in any reachable state. -/
theorem gui_saves_fixed_fps (st : AppState) (ioFails : Bool) (doc : RecordingDoc)
    (h : Reachable st) (hs : (save_current_recording ioFails st).2 = some doc) :
    doc.fps = 30 ∧ st.estimated_fps_recording = 30 := by
  have hfps := (reachable_appInv h).2
  refine ⟨?_, hfps⟩
  unfold save_current_recording at hs
  split_ifs at hs <;>
    solve
    | (exfalso; simp at hs)
    | (simp only [Option.some.injEq] at hs; rw [← hs]; exact hfps)

/-- Claim C10 witness: the document saved after recording one frame from
start-up has fps 30. -/
theorem gui_saves_fixed_fps_witness :
    guiSavedDoc.fps = 30 ∧ guiRecState.estimated_fps_recording = 30 := by
  have h1 : Reachable guiRecStart :=
    Reachable.step (Reachable.init true) (Step.toggleRec true false (initState true))
  have h2 : Reachable guiRecState :=
    Reachable.step h1 (Step.videoTick true (some [demoPoint]) guiRecStart)
  refine gui_saves_fixed_fps guiRecState false guiSavedDoc h2 ?_
  simp [save_current_recording, guiRecState, guiRecStart, update_video_feed,
    toggle_recording, init_camera, initState, pyStrip, update_replay_frame,
    guiSavedDoc]

end GestureRobot
